import Mathlib

/-!
Shallow embedding of the memo application in
`FUNCODING_FASTAPI_CODES_202404/04_FINALCODEMATERIALS/03_FASTAPI_ASYNC/02_ASYNC_SQLALCHEMY_MVC_FINAL`
(`controllers.py`, `dependencies.py`, `main.py`).

The persistent store is modelled as lists of `User` and `Memo` records plus
the store-assigned id counters; the signed-cookie session holds at most the
`username` key and is modelled as `Option String`.  Each HTTP handler of
`controllers.py` becomes a pure function from (store, session, input) to
(response, new store / new session).  Password hashing is the external
`passlib` collaborator: the handlers are parameterised by the `hash` and
`verify` functions it provides.
-/

namespace MemoApp

/-- `models.User` (fields as used in `controllers.py` and described in the
spec's data model): store-assigned integer id, globally unique username,
email, and the stored password hash. -/
structure User where
  id : Nat
  username : String
  email : String
  hashed_password : String
  deriving Repr, DecidableEq

/-- `models.Memo`: store-assigned integer id, owning user's id, title,
content. -/
structure Memo where
  id : Nat
  user_id : Nat
  title : String
  content : String
  deriving Repr, DecidableEq

/-- `schemas.MemoUpdate` as used by `update_memo`: both fields optional
(partial update). -/
structure MemoUpdate where
  title : Option String
  content : Option String
  deriving Repr, DecidableEq

/-- The persistent store: the `users` and `memos` tables, plus the
store-assigned autoincrement counters for the two primary keys. -/
structure Store where
  users : List User
  memos : List Memo
  nextUserId : Nat
  nextMemoId : Nat
  deriving Repr, DecidableEq

/-- The session collaborator: holds at most the `username` key
(`none` = key absent). -/
abbrev Session := Option String

/-- Outcome of a handler: a normal 200 response, an in-band soft-error
payload `\x7b"error": ...\x7d` returned with a 200 status, or a raised
`HTTPException status_code detail`. -/
inductive Resp (α : Type) where
  | ok : α → Resp α
  | softError : String → Resp α
  | httpError : Nat → String → Resp α
  deriving Repr, DecidableEq

/-- `db.execute(select(User).where(User.username == u)).scalars().first()`:
the first user record whose username equals `u`. -/
def firstUserByName (s : Store) (u : String) : Option User :=
  (s.users.filter (fun x => x.username == u)).head?

/-- `db.execute(select(Memo).filter(Memo.user_id == uid, Memo.id == mid)).scalars().first()`:
the first memo matching both the owner filter and the id filter. -/
def findMemo (s : Store) (uid mid : Nat) : Option Memo :=
  (s.memos.filter (fun m => m.user_id == uid && m.id == mid)).head?

/-- In-place mutation of the first record matched by the query
(`db_memo.title = ...` on the object returned by `.first()`). -/
def updateFirst (p : Memo → Bool) (f : Memo → Memo) : List Memo → List Memo
  | [] => []
  | m :: rest => if p m then f m :: rest else m :: updateFirst p f rest

/-- `await db.delete(db_memo)` on the object returned by `.first()`:
removes that record from the table. -/
def removeFirst (p : Memo → Bool) : List Memo → List Memo
  | [] => []
  | m :: rest => if p m then rest else m :: removeFirst p rest

/-- `signup` (controllers.py:14-32): existence query on the username first;
`HTTPException 400` if a user with that name exists, otherwise persist a new
`User` whose stored password field is `get_password_hash(password)` and
return the success message. -/
def signup (hash : String → String) (s : Store)
    (username email password : String) : Resp String × Store :=
  match firstUserByName s username with
  | some _ => (Resp.httpError 400 "이미 동일 사용자 이름이 가입되어 있습니다.", s)
  | none =>
      let newUser : User :=
        { id := s.nextUserId, username := username, email := email,
          hashed_password := hash password }
      (Resp.ok "회원가입이 성공했습니다.",
       { s with users := s.users ++ [newUser], nextUserId := s.nextUserId + 1 })

/-- `login` (controllers.py:35-43): look the user up by username; on a found
user whose stored hash verifies against the supplied password, write the
user's username into the session and return the success message; otherwise
raise `HTTPException 401` and leave the session unchanged. -/
def login (verify : String → String → Bool) (s : Store) (sess : Session)
    (username password : String) : Resp String × Session :=
  match firstUserByName s username with
  | some user =>
      if verify password user.hashed_password then
        (Resp.ok "로그인이 성공했습니다.", some user.username)
      else
        (Resp.httpError 401 "로그인이 실패했습니다.", sess)
  | none => (Resp.httpError 401 "로그인이 실패했습니다.", sess)

/-- `logout` (controllers.py:46-49): `session.pop("username", None)` —
unconditionally remove the `username` key and return the success message.
Takes no store argument: the handler performs no store access. -/
def logout (_sess : Session) : Resp String × Session :=
  (Resp.ok "로그아웃이 성공했습니다.", none)

/-- The shared precondition of the four memo handlers
(controllers.py:54-60, 70-76, 85-91, 109-115): `HTTPException 401` when the
session has no `username` key, `HTTPException 404` when the session's
username resolves to no user in the store, otherwise the resolved user. -/
def resolveUser (s : Store) (sess : Session) : Except (Nat × String) User :=
  match sess with
  | none => Except.error (401, "Not authorized")
  | some username =>
      match firstUserByName s username with
      | none => Except.error (404, "User not found")
      | some user => Except.ok user

/-- `create_memo` (controllers.py:52-65): after the shared precondition,
persist a new `Memo` owned by the resolved user and return it. -/
def create_memo (s : Store) (sess : Session) (title content : String) :
    Resp Memo × Store :=
  match resolveUser s sess with
  | Except.error (c, d) => (Resp.httpError c d, s)
  | Except.ok user =>
      let new_memo : Memo :=
        { id := s.nextMemoId, user_id := user.id, title := title, content := content }
      (Resp.ok new_memo,
       { s with memos := s.memos ++ [new_memo], nextMemoId := s.nextMemoId + 1 })

/-- `list_memos` (controllers.py:68-80): after the shared precondition,
return all memos whose `user_id` is the resolved user's id. -/
def list_memos (s : Store) (sess : Session) : Resp (List Memo) :=
  match resolveUser s sess with
  | Except.error (c, d) => Resp.httpError c d
  | Except.ok user => Resp.ok (s.memos.filter (fun m => m.user_id == user.id))

/-- Application of a `MemoUpdate` to the fetched record
(controllers.py:97-100): each field is written only when supplied. -/
def applyUpdate (u : MemoUpdate) (m : Memo) : Memo :=
  let m1 := match u.title with
    | some t => { m with title := t }
    | none => m
  match u.content with
  | some c => { m1 with content := c }
  | none => m1

/-- `update_memo` (controllers.py:83-104): after the shared precondition,
fetch the memo filtered by owner id and memo id; if absent return the soft
error payload; otherwise mutate the supplied fields in place and return the
updated record. -/
def update_memo (s : Store) (sess : Session) (memo_id : Nat) (u : MemoUpdate) :
    Resp Memo × Store :=
  match resolveUser s sess with
  | Except.error (c, d) => (Resp.httpError c d, s)
  | Except.ok user =>
      match findMemo s user.id memo_id with
      | none => (Resp.softError "Memo not found", s)
      | some db_memo =>
          let memos1 :=
            updateFirst (fun m => m.user_id == user.id && m.id == memo_id)
              (applyUpdate u) s.memos
          (Resp.ok (applyUpdate u db_memo), { s with memos := memos1 })

/-- `delete_memo` (controllers.py:107-124): after the shared precondition,
fetch the memo filtered by owner id and memo id; if absent return the soft
error payload; otherwise delete the record and return the success message. -/
def delete_memo (s : Store) (sess : Session) (memo_id : Nat) :
    Resp String × Store :=
  match resolveUser s sess with
  | Except.error (c, d) => (Resp.httpError c d, s)
  | Except.ok user =>
      match findMemo s user.id memo_id with
      | none => (Resp.softError "Memo not found", s)
      | some _ =>
          let memos1 :=
            removeFirst (fun m => m.user_id == user.id && m.id == memo_id) s.memos
          (Resp.ok "Memo deleted", { s with memos := memos1 })

/-- A concrete stand-in for the external `passlib` hash, used only to
instantiate witnesses: tags the password so the stored field is never the
plaintext. -/
def modelHash (p : String) : String := "$2b$" ++ p

/-- A concrete stand-in for the external `passlib` verification, matching
`modelHash`. -/
def modelVerify (plain hashed : String) : Bool := modelHash plain == hashed

/-! Helper lemmas about the query/mutation primitives. -/

theorem firstUserByName_username {s : Store} {un : String} {u : User}
    (h : firstUserByName s un = some u) : u.username = un := by
  have hmem : u ∈ s.users.filter (fun x => x.username == un) :=
    List.mem_of_mem_head? (Option.mem_def.mpr h)
  exact beq_iff_eq.mp (List.mem_filter.mp hmem).2

theorem applyUpdate_user_id (u : MemoUpdate) (m : Memo) :
    (applyUpdate u m).user_id = m.user_id := by
  unfold applyUpdate
  cases u.title <;> cases u.content <;> rfl

theorem applyUpdate_id (u : MemoUpdate) (m : Memo) :
    (applyUpdate u m).id = m.id := by
  unfold applyUpdate
  cases u.title <;> cases u.content <;> rfl

theorem applyUpdate_title (u : MemoUpdate) (m : Memo) :
    (applyUpdate u m).title = u.title.getD m.title := by
  unfold applyUpdate
  cases u.title <;> cases u.content <;> rfl

theorem applyUpdate_content (u : MemoUpdate) (m : Memo) :
    (applyUpdate u m).content = u.content.getD m.content := by
  unfold applyUpdate
  cases u.title <;> cases u.content <;> rfl

theorem applyUpdate_none (u : MemoUpdate) (m : Memo) (ht : u.title = none)
    (hc : u.content = none) : applyUpdate u m = m := by
  unfold applyUpdate
  rw [ht, hc]

theorem updateFirst_id (p : Memo → Bool) (f : Memo → Memo) (hf : ∀ x, f x = x)
    (l : List Memo) : updateFirst p f l = l := by
  induction l with
  | nil => rfl
  | cons m rest ih =>
      simp only [updateFirst]
      split <;> simp [hf, ih]

theorem updateFirst_getElem? (p : Memo → Bool) (f : Memo → Memo) (l : List Memo)
    (i : Nat) (m : Memo) (hm : l[i]? = some m) (hp : p m = false) :
    (updateFirst p f l)[i]? = some m := by
  induction l generalizing i with
  | nil => simp at hm
  | cons a rest ih =>
      cases i with
      | zero =>
          simp only [List.getElem?_cons_zero, Option.some.injEq] at hm
          subst hm
          simp [updateFirst, hp]
      | succ j =>
          simp only [List.getElem?_cons_succ] at hm
          simp only [updateFirst]
          split
          · simpa using hm
          · simpa using ih j hm

theorem filter_updateFirst (p q : Memo → Bool) (f : Memo → Memo) (l : List Memo)
    (hpq : ∀ m, p m = true → q m = false) (hf : ∀ m, q (f m) = q m) :
    (updateFirst p f l).filter q = l.filter q := by
  induction l with
  | nil => rfl
  | cons m rest ih =>
      simp only [updateFirst]
      cases hp : p m with
      | true => simp [List.filter_cons, hpq m hp, hf m]
      | false => simp [List.filter_cons, ih]

theorem filter_removeFirst (p q : Memo → Bool) (l : List Memo)
    (hpq : ∀ m, p m = true → q m = false) :
    (removeFirst p l).filter q = l.filter q := by
  induction l with
  | nil => rfl
  | cons m rest ih =>
      simp only [removeFirst]
      cases hp : p m with
      | true => simp [List.filter_cons, hpq m hp]
      | false => simp [List.filter_cons, ih]

theorem removeFirst_append_of_all_false (p : Memo → Bool) (l1 l2 : List Memo)
    (h : ∀ x ∈ l1, p x = false) :
    removeFirst p (l1 ++ l2) = l1 ++ removeFirst p l2 := by
  induction l1 with
  | nil => rfl
  | cons m rest ih =>
      simp only [List.cons_append, removeFirst, h m (List.mem_cons_self m rest)]
      simp only [Bool.false_eq_true, if_false, List.cons.injEq, true_and]
      exact ih (fun x hx => h x (List.mem_cons_of_mem m hx))

theorem filter_removeFirst_eq_nil (p : Memo → Bool) (l : List Memo)
    (hPW : l.Pairwise (fun a b => p a = true → p b = false)) :
    (removeFirst p l).filter p = [] := by
  induction l with
  | nil => rfl
  | cons m rest ih =>
      rcases List.pairwise_cons.mp hPW with ⟨hhead, htail⟩
      simp only [removeFirst]
      cases hp : p m with
      | true =>
          simp only [if_true]
          exact List.filter_eq_nil_iff.mpr
            (fun a ha => by simp [hhead a ha hp])
      | false =>
          simp only [Bool.false_eq_true, if_false, List.filter_cons, hp]
          exact ih htail

theorem resolveUser_set_memos (s : Store) (ms : List Memo) (sess : Session) :
    resolveUser { s with memos := ms } sess = resolveUser s sess := rfl

theorem delete_memo_soft (s : Store) (sess : Session) (userB : User) (mid : Nat)
    (h1 : resolveUser s sess = Except.ok userB)
    (h2 : findMemo s userB.id mid = none) :
    delete_memo s sess mid = (Resp.softError "Memo not found", s) := by
  simp [delete_memo, h1, h2]

theorem delete_memo_found (s : Store) (sess : Session) (userB : User) (mid : Nat)
    (m : Memo) (h1 : resolveUser s sess = Except.ok userB)
    (h2 : findMemo s userB.id mid = some m) :
    delete_memo s sess mid =
      (Resp.ok "Memo deleted",
       { s with memos :=
           removeFirst (fun x => x.user_id == userB.id && x.id == mid) s.memos }) := by
  simp [delete_memo, h1, h2]

theorem list_memos_ok (s : Store) (sess : Session) (userB : User)
    (h : resolveUser s sess = Except.ok userB) :
    list_memos s sess =
      Resp.ok (s.memos.filter (fun m => m.user_id == userB.id)) := by
  simp [list_memos, h]

theorem create_memo_ok (s : Store) (sess : Session) (userB : User) (t c : String)
    (h : resolveUser s sess = Except.ok userB) :
    create_memo s sess t c =
      (Resp.ok { id := s.nextMemoId, user_id := userB.id, title := t, content := c },
       { s with memos := s.memos ++ [{ id := s.nextMemoId, user_id := userB.id, title := t, content := c }], nextMemoId := s.nextMemoId + 1 }) := by
  simp [create_memo, h]

theorem resolveUser_set_memos_next (s : Store) (ms : List Memo) (k : Nat)
    (sess : Session) :
    resolveUser { s with memos := ms, nextMemoId := k } sess = resolveUser s sess := rfl

/-! Concrete fixtures used by the witness theorems. -/

/-- Witness fixture: user with id 1. -/
def aliceW : User :=
  { id := 1, username := "alice", email := "a@x.com", hashed_password := modelHash "pw1" }

/-- Witness fixture: user with id 2. -/
def bobW : User :=
  { id := 2, username := "bob", email := "b@y.com", hashed_password := modelHash "pw2" }

/-- Witness fixture: a memo owned by alice. -/
def memoA : Memo := { id := 10, user_id := 1, title := "ta", content := "ca" }

/-- Witness fixture: a memo owned by bob. -/
def memoB : Memo := { id := 11, user_id := 2, title := "tb", content := "cb" }

/-- Witness fixture: a store with two users and one memo each. -/
def storeW : Store :=
  { users := [aliceW, bobW], memos := [memoA, memoB], nextUserId := 3, nextMemoId := 12 }

/-! The claims. -/

/-- C8: for every session state (whether or not it holds a username, and
independently of the store, which the handler never receives), logout
removes the username key from the session and returns the success
message; it never fails. -/
theorem logout_correct (sess : Session) :
    logout sess = (Resp.ok "로그아웃이 성공했습니다.", none) := rfl

/-- C2: for every store, session and (username, password) input, login
returns the success message and writes the username into the session
exactly when a user with that username exists in the store and the supplied
password verifies against the stored hash; in every other case it raises a
401 error and leaves the session unchanged. -/
theorem login_correct (verify : String → String → Bool) (s : Store)
    (sess : Session) (un pw : String) :
    match firstUserByName s un with
    | some user =>
        if verify pw user.hashed_password then
          login verify s sess un pw = (Resp.ok "로그인이 성공했습니다.", some un)
        else
          login verify s sess un pw = (Resp.httpError 401 "로그인이 실패했습니다.", sess)
    | none =>
        login verify s sess un pw = (Resp.httpError 401 "로그인이 실패했습니다.", sess) := by
  cases h : firstUserByName s un with
  | none => simp [login, h]
  | some user =>
      have hu := firstUserByName_username h
      cases hv : verify pw user.hashed_password with
      | false => simp [login, h, hv]
      | true => simp [login, h, hv, hu]

/-- C9: a successful login while the session already holds a username (even
another user's) does not fail and needs no prior logout: it overwrites the
session's username with the newly authenticated user's name. -/
theorem login_overwrites_session (verify : String → String → Bool) (s : Store)
    (sess : Session) (un pw : String) (user : User)
    (hfind : firstUserByName s un = some user)
    (hverify : verify pw user.hashed_password = true) :
    login verify s sess un pw = (Resp.ok "로그인이 성공했습니다.", some un) := by
  have hu := firstUserByName_username hfind
  simp [login, hfind, hverify, hu]

/-- Witness for C9: alice logs in while the session still names bob; the
session ends up naming alice. -/
theorem login_overwrites_session_witness :
    firstUserByName storeW "alice" = some aliceW ∧
    modelVerify "pw1" aliceW.hashed_password = true ∧
    login modelVerify storeW (some "bob") "alice" "pw1" =
      (Resp.ok "로그인이 성공했습니다.", some "alice") :=
  ⟨by decide, by decide,
   login_overwrites_session modelVerify storeW (some "bob") "alice" "pw1" aliceW
     (by decide) (by decide)⟩

/-- C3: signup fails with a 400 conflict error and creates no record when a
user with the requested username already exists (decided by an existence
query before the insert); otherwise it appends a new user whose stored
password field is the hash of the supplied password (not the plaintext) and
returns the success message. -/
theorem signup_correct (hash : String → String) (s : Store) (un em pw : String) :
    match firstUserByName s un with
    | some _ =>
        signup hash s un em pw =
          (Resp.httpError 400 "이미 동일 사용자 이름이 가입되어 있습니다.", s)
    | none =>
        signup hash s un em pw =
          (Resp.ok "회원가입이 성공했습니다.",
           { s with users := s.users ++ [{ id := s.nextUserId, username := un, email := em, hashed_password := hash pw }], nextUserId := s.nextUserId + 1 }) := by
  cases h : firstUserByName s un with
  | none => simp [signup, h]
  | some user => simp [signup, h]

/-- C10: whenever update or delete answers with the in-band soft error
payload, the store is returned exactly as it was: the handler performed no
mutation before returning. -/
theorem soft_error_no_mutation (s : Store) (sess : Session) (mid : Nat)
    (u : MemoUpdate) (e : String) :
    ((update_memo s sess mid u).1 = Resp.softError e →
        (update_memo s sess mid u).2 = s) ∧
    ((delete_memo s sess mid).1 = Resp.softError e →
        (delete_memo s sess mid).2 = s) := by
  constructor
  · intro h
    unfold update_memo at h ⊢
    cases hres : resolveUser s sess with
    | error cd => rfl
    | ok user =>
        cases hfind : findMemo s user.id mid with
        | none => simp [hres, hfind]
        | some m => simp [hres, hfind] at h
  · intro h
    unfold delete_memo at h ⊢
    cases hres : resolveUser s sess with
    | error cd => rfl
    | ok user =>
        cases hfind : findMemo s user.id mid with
        | none => simp [hres, hfind]
        | some m => simp [hres, hfind] at h

/-- Witness for C10: the soft-error answer at a missing memo id leaves the
store untouched, for both update and delete. -/
theorem soft_error_no_mutation_witness :
    ((update_memo storeW (some "alice") 99 { title := none, content := none }).1 =
        Resp.softError "Memo not found" ∧
      (update_memo storeW (some "alice") 99 { title := none, content := none }).2 = storeW) ∧
    ((delete_memo storeW (some "alice") 99).1 = Resp.softError "Memo not found" ∧
      (delete_memo storeW (some "alice") 99).2 = storeW) :=
  ⟨⟨by decide,
    (soft_error_no_mutation storeW (some "alice") 99
      { title := none, content := none } "Memo not found").1 (by decide)⟩,
   ⟨by decide,
    (soft_error_no_mutation storeW (some "alice") 99
      { title := none, content := none } "Memo not found").2 (by decide)⟩⟩

/-- C4: the four memo operations share the same precondition check, in
order: with no username in the session each fails with the 401 error; with
a session username that resolves to no stored user each fails with the 404
error. -/
theorem memo_preconditions (s : Store) (t c : String) (mid : Nat)
    (u : MemoUpdate) (un : String) (h404 : firstUserByName s un = none) :
    ((create_memo s none t c).1 = Resp.httpError 401 "Not authorized" ∧
     list_memos s none = Resp.httpError 401 "Not authorized" ∧
     (update_memo s none mid u).1 = Resp.httpError 401 "Not authorized" ∧
     (delete_memo s none mid).1 = Resp.httpError 401 "Not authorized") ∧
    ((create_memo s (some un) t c).1 = Resp.httpError 404 "User not found" ∧
     list_memos s (some un) = Resp.httpError 404 "User not found" ∧
     (update_memo s (some un) mid u).1 = Resp.httpError 404 "User not found" ∧
     (delete_memo s (some un) mid).1 = Resp.httpError 404 "User not found") := by
  refine ⟨⟨?_, ?_, ?_, ?_⟩, ?_, ?_, ?_, ?_⟩ <;>
    simp [create_memo, list_memos, update_memo, delete_memo, resolveUser, h404]

/-- Witness for C4: in the two-user fixture, a session with no username
gets the 401 error and a session naming an unknown user gets the 404
error, on all four operations. -/
theorem memo_preconditions_witness :
    firstUserByName storeW "ghost" = none ∧
    (((create_memo storeW none "t" "c").1 = Resp.httpError 401 "Not authorized" ∧
      list_memos storeW none = Resp.httpError 401 "Not authorized" ∧
      (update_memo storeW none 10 { title := none, content := none }).1 =
        Resp.httpError 401 "Not authorized" ∧
      (delete_memo storeW none 10).1 = Resp.httpError 401 "Not authorized") ∧
     ((create_memo storeW (some "ghost") "t" "c").1 = Resp.httpError 404 "User not found" ∧
      list_memos storeW (some "ghost") = Resp.httpError 404 "User not found" ∧
      (update_memo storeW (some "ghost") 10 { title := none, content := none }).1 =
        Resp.httpError 404 "User not found" ∧
      (delete_memo storeW (some "ghost") 10).1 = Resp.httpError 404 "User not found")) :=
  ⟨by decide,
   memo_preconditions storeW "t" "c" 10 { title := none, content := none } "ghost"
     (by decide)⟩

/-- C1: ownership isolation — with the session resolved to user B, listing
returns only memos owned by B, and update or delete at any memo id leave
the sublist of memos not owned by B exactly as it was, so another user's
memo can never be returned, modified or removed. -/
theorem ownership_isolation (s : Store) (sess : Session) (userB : User)
    (mid : Nat) (u : MemoUpdate)
    (h : resolveUser s sess = Except.ok userB) :
    (∀ ms, list_memos s sess = Resp.ok ms → ∀ m ∈ ms, m.user_id = userB.id) ∧
    (update_memo s sess mid u).2.memos.filter (fun m => !(m.user_id == userB.id)) =
      s.memos.filter (fun m => !(m.user_id == userB.id)) ∧
    (delete_memo s sess mid).2.memos.filter (fun m => !(m.user_id == userB.id)) =
      s.memos.filter (fun m => !(m.user_id == userB.id)) := by
  refine ⟨?_, ?_, ?_⟩
  · intro ms hms m hm
    simp only [list_memos, h] at hms
    cases hms
    exact beq_iff_eq.mp (List.mem_filter.mp hm).2
  · simp only [update_memo, h]
    cases hfind : findMemo s userB.id mid with
    | none => rfl
    | some m0 =>
        exact filter_updateFirst _ _ _ _
          (fun m hp => by
            simp only [Bool.and_eq_true] at hp
            simp [hp.1])
          (fun m => by rw [applyUpdate_user_id])
  · simp only [delete_memo, h]
    cases hfind : findMemo s userB.id mid with
    | none => rfl
    | some m0 =>
        exact filter_removeFirst _ _ _
          (fun m hp => by
            simp only [Bool.and_eq_true] at hp
            simp [hp.1])

/-- Witness for C1: bob's session cannot see, change or remove alice's
memo. -/
theorem ownership_isolation_witness :
    resolveUser storeW (some "bob") = Except.ok bobW ∧
    ((∀ ms, list_memos storeW (some "bob") = Resp.ok ms → ∀ m ∈ ms, m.user_id = bobW.id) ∧
     (update_memo storeW (some "bob") 10 { title := some "hack", content := none }).2.memos.filter (fun m => !(m.user_id == bobW.id)) =
       storeW.memos.filter (fun m => !(m.user_id == bobW.id)) ∧
     (delete_memo storeW (some "bob") 10).2.memos.filter (fun m => !(m.user_id == bobW.id)) =
       storeW.memos.filter (fun m => !(m.user_id == bobW.id))) :=
  ⟨rfl,
   ownership_isolation storeW (some "bob") bobW 10
     { title := some "hack", content := none } rfl⟩

/-- C5: partial-update frame property — on a memo owned by the resolved
user, the handler returns the record with exactly the supplied fields
replaced (id and owner never change, an omitted field keeps its prior
value, supplying neither field leaves the store entirely unchanged), and
every memo other than the addressed one is left in place untouched. -/
theorem update_frame_property (s : Store) (sess : Session) (userB : User)
    (mid : Nat) (u : MemoUpdate) (m : Memo)
    (hres : resolveUser s sess = Except.ok userB)
    (hfind : findMemo s userB.id mid = some m) :
    (update_memo s sess mid u).1 = Resp.ok (applyUpdate u m) ∧
    (applyUpdate u m).id = m.id ∧
    (applyUpdate u m).user_id = m.user_id ∧
    (u.title = none → (applyUpdate u m).title = m.title) ∧
    (u.content = none → (applyUpdate u m).content = m.content) ∧
    (∀ t, u.title = some t → (applyUpdate u m).title = t) ∧
    (∀ c, u.content = some c → (applyUpdate u m).content = c) ∧
    (u.title = none → u.content = none → (update_memo s sess mid u).2 = s) ∧
    (∀ (i : Nat) (m' : Memo), s.memos[i]? = some m' →
      (m'.user_id == userB.id && m'.id == mid) = false →
      (update_memo s sess mid u).2.memos[i]? = some m') := by
  refine ⟨?_, applyUpdate_id u m, applyUpdate_user_id u m, ?_, ?_, ?_, ?_, ?_, ?_⟩
  · simp [update_memo, hres, hfind]
  · intro ht
    rw [applyUpdate_title, ht, Option.getD_none]
  · intro hc
    rw [applyUpdate_content, hc, Option.getD_none]
  · intro t ht
    rw [applyUpdate_title, ht, Option.getD_some]
  · intro c hc
    rw [applyUpdate_content, hc, Option.getD_some]
  · intro ht hc
    have hid : updateFirst (fun x => x.user_id == userB.id && x.id == mid)
        (applyUpdate u) s.memos = s.memos :=
      updateFirst_id _ _ (fun x => applyUpdate_none u x ht hc) _
    simp only [update_memo, hres, hfind, hid]
  · intro i m' hm' hp
    simp only [update_memo, hres, hfind]
    exact updateFirst_getElem? _ _ _ i m' hm' hp

/-- Witness for C5: updating only the title of alice's memo keeps its
content, owner and id, and leaves bob's memo untouched. -/
theorem update_frame_property_witness :
    resolveUser storeW (some "alice") = Except.ok aliceW ∧
    findMemo storeW aliceW.id 10 = some memoA ∧
    ((update_memo storeW (some "alice") 10 { title := some "new", content := none }).1 =
        Resp.ok (applyUpdate { title := some "new", content := none } memoA) ∧
      (applyUpdate { title := some "new", content := none } memoA).id = memoA.id ∧
      (applyUpdate { title := some "new", content := none } memoA).user_id = memoA.user_id ∧
      (({ title := some "new", content := none } : MemoUpdate).title = none →
        (applyUpdate { title := some "new", content := none } memoA).title = memoA.title) ∧
      (({ title := some "new", content := none } : MemoUpdate).content = none →
        (applyUpdate { title := some "new", content := none } memoA).content = memoA.content) ∧
      (∀ t, ({ title := some "new", content := none } : MemoUpdate).title = some t →
        (applyUpdate { title := some "new", content := none } memoA).title = t) ∧
      (∀ c, ({ title := some "new", content := none } : MemoUpdate).content = some c →
        (applyUpdate { title := some "new", content := none } memoA).content = c) ∧
      (({ title := some "new", content := none } : MemoUpdate).title = none →
        ({ title := some "new", content := none } : MemoUpdate).content = none →
        (update_memo storeW (some "alice") 10 { title := some "new", content := none }).2 = storeW) ∧
      (∀ (i : Nat) (m' : Memo), storeW.memos[i]? = some m' →
        (m'.user_id == aliceW.id && m'.id == 10) = false →
        (update_memo storeW (some "alice") 10 { title := some "new", content := none }).2.memos[i]? = some m')) :=
  ⟨rfl, rfl,
   update_frame_property storeW (some "alice") aliceW 10
     { title := some "new", content := none } memoA rfl rfl⟩

/-- C6: for an authenticated, resolvable user and a memo id matching no
memo owned by that user, update and delete raise no HTTP error: they answer
with the in-band payload carrying the text Memo not found.  Consequently,
when memo ids are unique (they are store-assigned primary keys), deleting
the same memo twice succeeds the first time and answers with that not-found
payload the second time. -/
theorem notfound_soft_and_double_delete (s : Store) (sess : Session)
    (userB : User) (mid : Nat) (u : MemoUpdate)
    (hres : resolveUser s sess = Except.ok userB) :
    (findMemo s userB.id mid = none →
      (update_memo s sess mid u).1 = Resp.softError "Memo not found" ∧
      (delete_memo s sess mid).1 = Resp.softError "Memo not found") ∧
    (s.memos.Pairwise (fun a b => a.id ≠ b.id) →
      ∀ m : Memo, findMemo s userB.id mid = some m →
        (delete_memo s sess mid).1 = Resp.ok "Memo deleted" ∧
        (delete_memo (delete_memo s sess mid).2 sess mid).1 =
          Resp.softError "Memo not found") := by
  constructor
  · intro hn
    constructor
    · simp [update_memo, hres, hn]
    · simp [delete_memo, hres, hn]
  · intro hPW m hm
    have hPW' : s.memos.Pairwise
        (fun a b => (a.user_id == userB.id && a.id == mid) = true →
                    (b.user_id == userB.id && b.id == mid) = false) := by
      refine List.Pairwise.imp ?_ hPW
      intro a b hab hpa
      simp only [Bool.and_eq_true] at hpa
      cases hpb : b.user_id == userB.id && b.id == mid with
      | false => rfl
      | true =>
          simp only [Bool.and_eq_true] at hpb
          exact absurd ((beq_iff_eq.mp hpa.2).trans (beq_iff_eq.mp hpb.2).symm) hab
    have hs2 : (delete_memo s sess mid).2 =
        { s with memos :=
            removeFirst (fun x => x.user_id == userB.id && x.id == mid) s.memos } := by
      simp [delete_memo, hres, hm]
    have hfind2 : findMemo (delete_memo s sess mid).2 userB.id mid = none := by
      rw [hs2]
      show ((removeFirst (fun x => x.user_id == userB.id && x.id == mid)
          s.memos).filter (fun x => x.user_id == userB.id && x.id == mid)).head? = none
      rw [filter_removeFirst_eq_nil _ _ hPW']
      rfl
    have hres2 : resolveUser (delete_memo s sess mid).2 sess = Except.ok userB := by
      rw [hs2, resolveUser_set_memos]
      exact hres
    constructor
    · simp [delete_memo, hres, hm]
    · rw [delete_memo_soft _ _ _ _ hres2 hfind2]

/-- Witness for C6: in the fixture, deleting memo 10 as alice succeeds once
and answers the not-found payload on the repeat; an id owned by nobody
yields the payload immediately. -/
theorem notfound_soft_and_double_delete_witness :
    resolveUser storeW (some "alice") = Except.ok aliceW ∧
    ((findMemo storeW aliceW.id 99 = none →
       (update_memo storeW (some "alice") 99 { title := none, content := none }).1 =
         Resp.softError "Memo not found" ∧
       (delete_memo storeW (some "alice") 99).1 = Resp.softError "Memo not found") ∧
     (storeW.memos.Pairwise (fun a b => a.id ≠ b.id) →
       ∀ m : Memo, findMemo storeW aliceW.id 99 = some m →
         (delete_memo storeW (some "alice") 99).1 = Resp.ok "Memo deleted" ∧
         (delete_memo (delete_memo storeW (some "alice") 99).2 (some "alice") 99).1 =
           Resp.softError "Memo not found")) ∧
    ((findMemo storeW aliceW.id 10 = none →
       (update_memo storeW (some "alice") 10 { title := none, content := none }).1 =
         Resp.softError "Memo not found" ∧
       (delete_memo storeW (some "alice") 10).1 = Resp.softError "Memo not found") ∧
     (storeW.memos.Pairwise (fun a b => a.id ≠ b.id) →
       ∀ m : Memo, findMemo storeW aliceW.id 10 = some m →
         (delete_memo storeW (some "alice") 10).1 = Resp.ok "Memo deleted" ∧
         (delete_memo (delete_memo storeW (some "alice") 10).2 (some "alice") 10).1 =
           Resp.softError "Memo not found")) :=
  ⟨rfl,
   notfound_soft_and_double_delete storeW (some "alice") aliceW 99
     { title := none, content := none } rfl,
   notfound_soft_and_double_delete storeW (some "alice") aliceW 10
     { title := none, content := none } rfl⟩

/-- C7: round-trip — starting from a store with no memos owned by the
resolved user, create followed by list yields exactly one record carrying
the supplied title and content and the store-assigned id returned by
create; deleting that id then makes list come back empty. -/
theorem create_list_delete_roundtrip (s : Store) (sess : Session) (userB : User)
    (t c : String) (hres : resolveUser s sess = Except.ok userB)
    (hempty : s.memos.filter (fun m => m.user_id == userB.id) = []) :
    ∃ m : Memo,
      (create_memo s sess t c).1 = Resp.ok m ∧
      m.title = t ∧ m.content = c ∧ m.id = s.nextMemoId ∧ m.user_id = userB.id ∧
      list_memos (create_memo s sess t c).2 sess = Resp.ok [m] ∧
      list_memos (delete_memo (create_memo s sess t c).2 sess m.id).2 sess =
        Resp.ok [] := by
  have hall : ∀ x ∈ s.memos, (x.user_id == userB.id) = false := by
    intro x hx
    cases hb : x.user_id == userB.id with
    | false => rfl
    | true => exact absurd hb (List.filter_eq_nil_iff.mp hempty x hx)
  have hc2 : (create_memo s sess t c).2 =
      { s with memos := s.memos ++ [{ id := s.nextMemoId, user_id := userB.id, title := t, content := c }], nextMemoId := s.nextMemoId + 1 } := by
    rw [create_memo_ok s sess userB t c hres]
  have hres1 : resolveUser (create_memo s sess t c).2 sess = Except.ok userB := by
    rw [hc2, resolveUser_set_memos_next]
    exact hres
  have hallp : ∀ x ∈ s.memos,
      (x.user_id == userB.id && x.id == s.nextMemoId) = false := by
    intro x hx
    simp [hall x hx]
  refine ⟨{ id := s.nextMemoId, user_id := userB.id, title := t, content := c },
    ?_, rfl, rfl, rfl, rfl, ?_, ?_⟩
  · rw [create_memo_ok s sess userB t c hres]
  · rw [list_memos_ok _ sess userB hres1, hc2]
    simp [List.filter_append, hempty]
  · show list_memos
      (delete_memo (create_memo s sess t c).2 sess s.nextMemoId).2 sess = Resp.ok []
    have hnilf : s.memos.filter
        (fun x => x.user_id == userB.id && x.id == s.nextMemoId) = [] :=
      List.filter_eq_nil_iff.mpr (fun a ha => by simp [hallp a ha])
    have hfind1 : findMemo (create_memo s sess t c).2 userB.id s.nextMemoId =
        some { id := s.nextMemoId, user_id := userB.id, title := t, content := c } := by
      rw [hc2]
      show ((s.memos ++ [({ id := s.nextMemoId, user_id := userB.id, title := t, content := c } : Memo)]).filter (fun x => x.user_id == userB.id && x.id == s.nextMemoId)).head? =
        some { id := s.nextMemoId, user_id := userB.id, title := t, content := c }
      rw [List.filter_append, hnilf]
      simp
    have hdel := delete_memo_found _ sess userB s.nextMemoId _ hres1 hfind1
    have hdel1 : (delete_memo (create_memo s sess t c).2 sess s.nextMemoId).2.memos =
        s.memos := by
      rw [hdel]
      show removeFirst (fun x => x.user_id == userB.id && x.id == s.nextMemoId)
        (create_memo s sess t c).2.memos = s.memos
      rw [hc2]
      show removeFirst (fun x => x.user_id == userB.id && x.id == s.nextMemoId)
        (s.memos ++ [{ id := s.nextMemoId, user_id := userB.id, title := t, content := c }]) = s.memos
      rw [removeFirst_append_of_all_false _ _ _ hallp]
      simp [removeFirst]
    have hdelres : resolveUser
        (delete_memo (create_memo s sess t c).2 sess s.nextMemoId).2 sess =
        Except.ok userB := by
      rw [hdel]
      exact hres1
    rw [list_memos_ok _ sess userB hdelres, hdel1, hempty]

/-- Witness for C7: with bob's memo removed, alice owns no memo; creating
one and listing shows exactly it, and deleting it empties the listing
again. -/
theorem create_list_delete_roundtrip_witness :
    resolveUser { storeW with memos := [memoB] } (some "alice") = Except.ok aliceW ∧
    ({ storeW with memos := [memoB] } : Store).memos.filter
      (fun m => m.user_id == aliceW.id) = [] ∧
    ∃ m : Memo,
      (create_memo { storeW with memos := [memoB] } (some "alice") "t" "c").1 = Resp.ok m ∧
      m.title = "t" ∧ m.content = "c" ∧
      m.id = ({ storeW with memos := [memoB] } : Store).nextMemoId ∧
      m.user_id = aliceW.id ∧
      list_memos (create_memo { storeW with memos := [memoB] } (some "alice") "t" "c").2
        (some "alice") = Resp.ok [m] ∧
      list_memos (delete_memo
        (create_memo { storeW with memos := [memoB] } (some "alice") "t" "c").2
        (some "alice") m.id).2 (some "alice") = Resp.ok [] :=
  ⟨rfl, by decide,
   create_list_delete_roundtrip { storeW with memos := [memoB] } (some "alice")
     aliceW "t" "c" rfl (by decide)⟩

end MemoApp
